import Mathlib

/-!
# Verification of the CMS A2A attestation network's trust core

A shallow embedding, in Lean 4, of the credential signing / verification
core of the repository:

* `src/shared/trust_registry.py` — `TrustRegistry` (registry data,
  `resolve_issuer`, `verify_proof`);
* `src/gcp_functions/cms_agent.py` — `issue_verifiable_credential`;
* `src/shared/crypto_utils.py` — `sign_credential`, `verify_credential`;
* `src/shared_logic.py` — `sign_attestation`;
* `src/gcp_functions/payer_agent.py` and `src/lambda/payer_agent.py` —
  `handle_prior_auth`.

Modelling conventions:

* Python strings are `List Char` (`Str`); JSON-serialisable Python values
  are `JVal`; Python dicts are insertion-ordered association lists with
  unique keys (`Dict`), with `get` / item assignment / `del` given Python
  semantics (assignment updates in place, otherwise appends).
* Ed25519 is modelled symbolically (perfect cryptography): a signature
  records the signing key and the exact signed bytes, and verification
  succeeds exactly when the public key matches the signer's key and the
  bytes match.  The single base64url encoding applied to signatures in the
  code is modelled by an injective, computable encoding whose output
  contains neither `'.'` nor `'='`, matching the two properties of real
  base64 output that the code relies on (the `".."` separator of the JWS
  cannot occur inside it, and `rstrip("=")` / re-padding is the identity
  composed with a strip of trailing `'='`).
* The hardcoded CMS registry public key
  `VJ6zOcffdcAyiKgHyTGifk1SLSREdheAE9Wnu3Jzq6k=` was checked (by an
  independent Ed25519 computation) to be exactly the public key of the
  hardcoded seed `secret_seed_for_cms_agent_32_byt`; the model therefore
  registers `pubOf cmsSeed` for the CMS issuer.
* Python exceptions that escape a function are `Except.error`; the blanket
  `except (InvalidSignature, Exception)` block inside `verify_proof` is a
  total function (every exception inside it is caught).
* Wall-clock time (`datetime.utcnow()`) and generated ids (`uuid`) are
  passed as explicit parameters; ledger writes (Firestore / DynamoDB) are
  out-of-scope collaborators and are not modelled.
-/

set_option autoImplicit false

abbrev Str := List Char

/-- Convert a Lean string literal to the `Str` representation. -/
def str (s : String) : Str := s.data

/-- JSON-serialisable Python values. -/
inductive JVal where
  | jstr : Str → JVal
  | jnum : Int → JVal
  | jbool : Bool → JVal
  | jnull : JVal
  | jarr : List JVal → JVal
  | jobj : List (Str × JVal) → JVal

open JVal

/-- A Python dict with string keys: insertion-ordered association list. -/
abbrev Dict := List (Str × JVal)

/-- `d.get(k)` returning `None` when absent is `dget d k = none`. -/
def dget (d : Dict) (k : Str) : Option JVal :=
  match d with
  | [] => none
  | (k₁, v₁) :: rest => if k₁ = k then some v₁ else dget rest k

/-- `d.get(k, dflt)`. -/
def dgetD (d : Dict) (k : Str) (dflt : JVal) : JVal :=
  (dget d k).getD dflt

/-- `k in d`. -/
def dcontains (d : Dict) (k : Str) : Bool :=
  (dget d k).isSome

/-- `d[k] = v`: replace in place if the key exists, else append at the end
(Python dicts preserve insertion order, and re-assignment keeps the key's
original position). -/
def dset (d : Dict) (k : Str) (v : JVal) : Dict :=
  match d with
  | [] => [(k, v)]
  | (k₁, v₁) :: rest => if k₁ = k then (k₁, v) :: rest else (k₁, v₁) :: dset rest k v

/-- `del d[k]` (the key is present in every use site; on an absent key the
entries are simply unchanged, where Python would raise `KeyError`). -/
def ddel (d : Dict) (k : Str) : Dict :=
  match d with
  | [] => []
  | (k₁, v₁) :: rest => if k₁ = k then rest else (k₁, v₁) :: ddel rest k

/-- Python truthiness of a `JVal` (`if not vc: ...`). -/
def pyTruthy : JVal → Bool
  | jstr s => !s.isEmpty
  | jnum n => decide (n ≠ 0)
  | jbool b => b
  | jnull => false
  | jarr l => !l.isEmpty
  | jobj l => !l.isEmpty

/-- JSON string escaping, for the two characters whose escaping matters to
the development (`"` and `\`); other characters are emitted verbatim. -/
def escJsonChar (c : Char) : Str :=
  if c = '"' ∨ c = '\\' then ['\\', c] else [c]

/-- Serialised JSON string literal. -/
def dumpJStr (s : Str) : Str :=
  '"' :: s.flatMap escJsonChar ++ ['"']

mutual
/-- `json.dumps` with its default separators `", "` and `": "`, serialising
objects in insertion order (as Python does). -/
def dumps : JVal → Str
  | jstr s => dumpJStr s
  | jnum n => (toString n).data
  | jbool true => str "true"
  | jbool false => str "false"
  | jnull => str "null"
  | jarr l => '[' :: dumpsArr l ++ [']']
  | jobj l => '\x7b' :: dumpsObj l ++ ['\x7d']

/-- Comma-joined serialisation of array elements. -/
def dumpsArr : List JVal → Str
  | [] => []
  | [v] => dumps v
  | v :: rest => dumps v ++ str ", " ++ dumpsArr rest

/-- Comma-joined serialisation of object entries. -/
def dumpsObj : List (Str × JVal) → Str
  | [] => []
  | [(k, v)] => dumpJStr k ++ str ": " ++ dumps v
  | (k, v) :: rest => dumpJStr k ++ str ": " ++ dumps v ++ str ", " ++ dumpsObj rest
end

/-! ## Symbolic Ed25519 and base64url (perfect-cryptography model) -/

abbrev SecretKey := Nat
abbrev PublicKey := Nat

/-- Public key of a secret key (symbolic key pairing). -/
def pubOf (sk : SecretKey) : PublicKey := sk

/-- A symbolic Ed25519 signature: records the signing key and the signed
bytes. -/
structure Sig where
  sk : SecretKey
  data : Str
deriving DecidableEq

/-- `private_key.sign(data)`. -/
def edSign (sk : SecretKey) (data : Str) : Sig := ⟨sk, data⟩

/-- `public_key.verify(signature, data)` succeeds (no `InvalidSignature`)
exactly when the key pair matches and the bytes match. -/
def edVerify (pk : PublicKey) (s : Sig) (data : Str) : Bool :=
  decide (pk = pubOf s.sk) && decide (s.data = data)

/-- Escape one character of the signed bytes for the base64url model: the
output alphabet never contains `'.'` or `'='`, mirroring real base64. -/
def escB64Char (c : Char) : Str :=
  if c = '.' then ['E', 'd']
  else if c = '=' then ['E', 'q']
  else if c = 'E' then ['E', 'E']
  else [c]

/-- Escape the signed bytes (injective, `'.'`-free and `'='`-free). -/
def escB64 (s : Str) : Str := s.flatMap escB64Char

/-- Inverse of `escB64`. -/
def unescB64 : Str → Option Str
  | [] => some []
  | c :: rest =>
    if c = 'E' then
      match rest with
      | [] => none
      | c₂ :: rest₂ =>
        if c₂ = 'd' then (unescB64 rest₂).map ('.' :: ·)
        else if c₂ = 'q' then (unescB64 rest₂).map ('=' :: ·)
        else if c₂ = 'E' then (unescB64 rest₂).map ('E' :: ·)
        else none
    else (unescB64 rest).map (c :: ·)

/-- Model of `base64.urlsafe_b64encode(signature).decode().rstrip("=")`:
an injective printable encoding of the symbolic signature whose output
contains neither `'.'` nor `'='` (as real unpadded base64url output does
not).  The secret key is rendered in unary so the decoder needs no digit
parsing. -/
def b64EncodeSig (s : Sig) : Str :=
  List.replicate s.sk 'S' ++ 'K' :: escB64 s.data

/-- Strip all trailing `'='` characters (base64 padding). -/
def stripPad (s : Str) : Str :=
  (s.reverse.dropWhile (· = '=')).reverse

/-- Model of `base64.urlsafe_b64decode(s)` on a possibly re-padded
signature string: strips padding, then inverts `b64EncodeSig`; any string
not in the encoder's image decodes to `none` (Python: `binascii.Error`). -/
def b64DecodeSig (s : Str) : Option Sig :=
  let s := stripPad s
  let unary := s.takeWhile (· = 'S')
  match s.dropWhile (· = 'S') with
  | 'K' :: dataEnc => (unescB64 dataEnc).map (fun d => ⟨unary.length, d⟩)
  | _ => none

/-! ## Python `str.split("..")` and JWS parsing -/

/-- Model of Python `jws.split("..")` (split on every non-overlapping
occurrence of the two-character separator, leftmost first); `acc` holds
the current fragment reversed. -/
def splitDD (acc : Str) : Str → List Str
  | [] => [acc.reverse]
  | [c] => [(c :: acc).reverse]
  | c₁ :: c₂ :: rest =>
    if c₁ = '.' ∧ c₂ = '.' then acc.reverse :: splitDD [] rest
    else splitDD (c₁ :: acc) (c₂ :: rest)

/-- The fragments of a JWS string.  Python's `".." in jws` test is exactly
`(jwsParts jws).length ≥ 2` (a string contains the separator iff splitting
on it yields more than one fragment). -/
def jwsParts (jws : Str) : List Str := splitDD [] jws

/-! ## TrustRegistry (src/shared/trust_registry.py) -/

/-- A Python exception escaping a function. -/
inductive PyErr where
  | valueError
  | typeError
  | attributeError
deriving DecidableEq

/-- The value side of a `TRUSTED_ISSUERS` entry.  The `publicKey` field of
the source is a base64 string; the model stores its decoded value (a
symbolic key). -/
structure IssuerInfo where
  publicKey : PublicKey
  name : Str
  roles : List Str
  verificationMethod : Str

/-- The CMS signing seed `secret_seed_for_cms_agent_32_byt` (symbolic). -/
def cmsSeed : SecretKey := 1

/-- The decoded clearinghouse registry key
`YWJjZGVmZ2hpamtsbW5vcHFyc3R1dnd4eXoxMjM0NTY=` (symbolic; no secret
counterpart appears anywhere in the repository). -/
def clearinghousePub : PublicKey := 2

def cmsDid : Str := str "did:web:cms.gov:agent:a2a-v1"

def cmsVerificationMethod : Str := str "did:web:cms.gov:agent:a2a-v1#key-1"

/-- `TrustRegistry.TRUSTED_ISSUERS`.  The CMS entry's stored public key
decodes to exactly the public key of `cmsSeed` (checked against the
repository's hardcoded constants by an independent Ed25519 computation),
so the model registers `pubOf cmsSeed`. -/
def TRUSTED_ISSUERS : List (Str × IssuerInfo) :=
  [ (cmsDid,
     ⟨pubOf cmsSeed,
      str "Centers for Medicare & Medicaid Services (CMS)",
      [str "Issuer"],
      cmsVerificationMethod⟩),
    (str "did:web:clearinghouse.io:agent",
     ⟨clearinghousePub,
      str "Secure Healthcare Clearinghouse Hub",
      [str "Verifier", str "Proxy"],
      str "did:web:clearinghouse.io:agent#key-1"⟩) ]

/-- Association lookup in the registry (`dict.get` on string keys). -/
def lookupIssuer (reg : List (Str × IssuerInfo)) (k : Str) : Option IssuerInfo :=
  match reg with
  | [] => none
  | (k₁, v₁) :: rest => if k₁ = k then some v₁ else lookupIssuer rest k

/-- `TrustRegistry.resolve_issuer(did)`, for the `did` value read out of a
credential: a string key is looked up, a hashable non-string key (None,
number, bool) is simply absent, and an unhashable key (dict, list) makes
`dict.get` raise `TypeError`. -/
def resolve_issuer : JVal → Except PyErr (Option IssuerInfo)
  | jstr s => .ok (lookupIssuer TRUSTED_ISSUERS s)
  | jobj _ => .error .typeError
  | jarr _ => .error .typeError
  | _ => .ok none

/-- `f"Cryptographic Verification Failed: {str(e)}"`. -/
def cryptoFailMsg (e : Str) : Str :=
  str "Cryptographic Verification Failed: " ++ e

/-- `str(value)` as used by the f-string building the signed data.  Only
string values reach this point in the theorems below; non-string values
are rendered approximately (their JSON serialisation). -/
def pyFString : JVal → Str
  | jstr s => s
  | jnum n => (toString n).data
  | jbool true => str "True"
  | jbool false => str "False"
  | jnull => str "None"
  | v => dumps v

/-- The `try:` block of `verify_proof` (total: `except (InvalidSignature,
Exception)` catches every exception raised inside, returning the
`Cryptographic Verification Failed` rejection with `str(e)` appended —
empty for `InvalidSignature`, the missing key for `KeyError`). -/
def verifyProofTry (vc : Dict) (info : IssuerInfo) (signatureB64 : Str) : Bool × Str :=
  match b64DecodeSig (signatureB64 ++ str "==") with
  | none => (false, cryptoFailMsg (str "Invalid base64-encoded string"))
  | some s =>
    match dget vc (str "id") with
    | none => (false, cryptoFailMsg (str "'id'"))
    | some idv =>
      match dget vc (str "issuanceDate") with
      | none => (false, cryptoFailMsg (str "'issuanceDate'"))
      | some datev =>
        let signedData := pyFString idv ++ '|' :: pyFString datev
        if edVerify info.publicKey s signedData then
          (true, str "Credential Verified via Cryptographic Proof")
        else
          (false, cryptoFailMsg [])

/-- Is a list element the Python string `".."`?  (for `".." in jws` when
`jws` is a list). -/
def isDotDotStr : JVal → Bool
  | jstr s => decide (s = str "..")
  | _ => false

/-- The JWS steps of `verify_proof`, after the proof-type check:
`jws = proof.get("jws", "")`, the `".." not in jws` guard, and the
unguarded `_, signature_b64 = jws.split("..")` unpacking (which raises
`ValueError` when the split yields more than two fragments — that
statement sits outside the `try:` block).  A non-string `jws` raises
`TypeError` from the `in` test, except that lists and dicts support `in`:
they fail the guard unless they contain the string `".."`, in which case
`.split` raises `AttributeError`. -/
def verifyProofJws (vc : Dict) (info : IssuerInfo) : JVal → Except PyErr (Bool × Str)
  | jstr jws =>
    match jwsParts jws with
    | [_, signatureB64] => .ok (verifyProofTry vc info signatureB64)
    | [_] => .ok (false, str "Invalid JWS format")
    | _ => .error .valueError
  | jarr l =>
    if l.any isDotDotStr then .error .attributeError
    else .ok (false, str "Invalid JWS format")
  | jobj d =>
    if d.any (fun kv => decide (kv.1 = str "..")) then .error .attributeError
    else .ok (false, str "Invalid JWS format")
  | _ => .error .typeError

/-- The proof-type comparison of `verify_proof`
(`proof.get("type") != "Ed25519Signature2020"`), then the JWS steps. -/
def verifyProofType (vc : Dict) (info : IssuerInfo) (proof : Dict) :
    JVal → Except PyErr (Bool × Str)
  | jstr t =>
    if t = str "Ed25519Signature2020" then
      verifyProofJws vc info (dgetD proof (str "jws") (jstr []))
    else .ok (false, str "Unsupported proof type")
  | _ => .ok (false, str "Unsupported proof type")

/-- The `proof = vc.get("proof", {})` step of `verify_proof`: calling
`.get` on a non-dict proof value raises `AttributeError`. -/
def verifyProofObj (vc : Dict) (info : IssuerInfo) : JVal → Except PyErr (Bool × Str)
  | jobj proof => verifyProofType vc info proof (dgetD proof (str "type") jnull)
  | _ => .error .attributeError

/-- The issuer-resolution step of `verify_proof`: an unknown issuer is the
first, short-circuiting failure. -/
def verifyIssuer (vc : Dict) : Except PyErr (Option IssuerInfo) → Except PyErr (Bool × Str)
  | .error e => .error e
  | .ok none => .ok (false, str "Issuer not found in Trust Registry")
  | .ok (some info) => verifyProofObj vc info (dgetD vc (str "proof") (jobj []))

/-- `TrustRegistry.verify_proof(verifiable_credential)`.  Returns the
`(bool, message)` pair of the source, or `Except.error` for an exception
escaping the function. -/
def verify_proof (vc : Dict) : Except PyErr (Bool × Str) :=
  verifyIssuer vc (resolve_issuer (dgetD vc (str "issuer") jnull))

/-! ## GCP CMS agent issuance (src/gcp_functions/cms_agent.py) -/

/-- The fixed JWS header constant of `issue_verifiable_credential`. -/
def jwsHeader : Str :=
  str "eyJhbGciOiJFZERTQSIsImI2NCI6ZmFsc2UsImNyaXQiOlsiYjY0Il19"

/-- `issue_verifiable_credential(attestation_id, tenant_id, validation)`.
The module-level `private_key` is the key derived from `cmsSeed`; the
wall-clock issuance timestamp is the explicit parameter `now`. -/
def issue_verifiable_credential (attestationId tenantId : Str)
    (validation : Dict) (now : Str) : Dict :=
  let issuanceDate := now
  let vcId := str "urn:uuid:" ++ attestationId
  let signedData := vcId ++ '|' :: issuanceDate
  let signature := edSign cmsSeed signedData
  let signatureB64 := b64EncodeSig signature
  [ (str "@context",
     jarr [jstr (str "https://www.w3.org/2018/credentials/v1"),
           jstr (str "https://schema.org/healthcare")]),
    (str "id", jstr vcId),
    (str "type",
     jarr [jstr (str "VerifiableCredential"),
           jstr (str "HealthcareAttestationCredential")]),
    (str "issuer", jstr cmsDid),
    (str "issuanceDate", jstr issuanceDate),
    (str "credentialSubject", jobj [
      (str "id", jstr (str "did:web:provider-" ++ tenantId ++ str ".com")),
      (str "attestationType", jstr (str "GCPMigrationValidation")),
      (str "complianceStatus",
       jstr (if pyTruthy (dgetD validation (str "valid") jnull)
             then str "Compliant" else str "Flagged")),
      (str "validationReason",
       dgetD validation (str "reason") (jstr (str "GCP Automated Review")))]),
    (str "proof", jobj [
      (str "type", jstr (str "Ed25519Signature2020")),
      (str "created", jstr issuanceDate),
      (str "verificationMethod", jstr cmsVerificationMethod),
      (str "proofPurpose", jstr (str "assertionMethod")),
      (str "jws", jstr (jwsHeader ++ '.' :: '.' :: signatureB64))]) ]

/-! ## Payer decision handlers (src/gcp_functions/payer_agent.py and
src/lambda/payer_agent.py) -/

/-- `handle_prior_auth(params)` of the GCP payer agent, up to and
including the decision (the Firestore audit write is an out-of-scope
collaborator); `authId` is the generated `GCP-AUTH-…` identifier.
Calling `TrustRegistry.verify_proof` on a truthy non-dict credential
raises `AttributeError` from `vc.get("issuer")`. -/
def gcpDecide (authId : Str) : Except PyErr (Bool × Str) → Except PyErr Dict
  | .error e => .error e
  | .ok (valid, msg) =>
    if valid then
      .ok [(str "auth_id", jstr authId),
           (str "status", jstr (str "Auto-Approved")),
           (str "notes", jstr (str "Verified via CMS Trust Hub"))]
    else
      .ok [(str "status", jstr (str "Denied")),
           (str "reason", jstr (str "Verification Failed: " ++ msg))]

/-- The `if not vc` guard and the verification dispatch of the GCP
handler, on the value read from `params`. -/
def gcpCheckVC (authId : Str) (vcV : JVal) : Except PyErr Dict :=
  if pyTruthy vcV = false then
    .ok [(str "status", jstr (str "Denied")),
         (str "reason", jstr (str "Missing Verifiable Credential"))]
  else
    match vcV with
    | jobj vc => gcpDecide authId (verify_proof vc)
    | _ => .error .attributeError

def gcp_handle_prior_auth (params : Dict) (authId : Str) : Except PyErr Dict :=
  gcpCheckVC authId (dgetD params (str "verifiable_credential") jnull)

/-- `handle_prior_auth(params)` of the AWS Lambda payer agent, up to and
including the decision (the DynamoDB ledger write is an out-of-scope
collaborator); `priorAuthId` is the generated `AUTH-…` identifier and
`validUntil` the computed one-year validity timestamp. -/
def lambdaDecide (priorAuthId validUntil : Str) :
    Except PyErr (Bool × Str) → Except PyErr Dict
  | .error e => .error e
  | .ok (valid, msg) =>
    if valid then
      .ok [(str "prior_auth_id", jstr priorAuthId),
           (str "status", jstr (str "Auto-Approved")),
           (str "valid_until", jstr validUntil)]
    else
      .ok [(str "status", jstr (str "Denied")),
           (str "reason", jstr (str "Untrusted Credential: " ++ msg))]

/-- The `if not vc` guard and the verification dispatch of the Lambda
handler, on the value read from `params`. -/
def lambdaCheckVC (priorAuthId validUntil : Str) (vcV : JVal) : Except PyErr Dict :=
  if pyTruthy vcV = false then
    .ok [(str "status", jstr (str "Denied")),
         (str "reason", jstr (str "No Verifiable Credential presented"))]
  else
    match vcV with
    | jobj vc => lambdaDecide priorAuthId validUntil (verify_proof vc)
    | _ => .error .attributeError

def lambda_handle_prior_auth (params : Dict) (priorAuthId : Str)
    (validUntil : Str) : Except PyErr Dict :=
  lambdaCheckVC priorAuthId validUntil (dgetD params (str "verifiable_credential") jnull)

/-! ## Shared crypto utilities (src/shared/crypto_utils.py) -/

/-- The proof block attached by `sign_credential`. -/
def proofBlock (created verificationMethod : Str) (signature : Sig) : JVal :=
  jobj [
    (str "type", jstr (str "Ed25519Signature2020")),
    (str "created", jstr created),
    (str "verificationMethod", jstr verificationMethod),
    (str "proofPurpose", jstr (str "assertionMethod")),
    (str "jws", jstr (b64EncodeSig signature))]

/-- The credential as it stands when `sign_credential` serialises it: the
input dict, with `issuanceDate` set to the current timestamp only when the
key was absent. -/
def withIssuanceDate (credential : Dict) (now : Str) : Dict :=
  if dcontains credential (str "issuanceDate") then credential
  else dset credential (str "issuanceDate") (jstr now)

/-- `sign_credential(credential, private_key, verification_method)`; `now`
is `datetime.utcnow().isoformat() + "Z"`.  Serialises the dict with
`json.dumps` (insertion order, no key sorting, no `proof` exclusion),
signs the bytes, and attaches the proof block. -/
def sign_credential (credential : Dict) (privateKey : SecretKey)
    (verificationMethod : Str) (now : Str) : Dict :=
  let credential := withIssuanceDate credential now
  let credentialBytes := dumps (jobj credential)
  let signature := edSign privateKey credentialBytes
  dset credential (str "proof") (proofBlock now verificationMethod signature)

/-- `verify_credential(credential, public_key_bytes)`: total — the whole
body sits in a `try:` whose `except Exception` returns `False`.  Strips
the `proof` field from a copy, re-serialises, and checks the signature
from the proof's `jws`. -/
def verify_credential (credential : Dict) (publicKey : PublicKey) : Bool :=
  let proofV := dgetD credential (str "proof") (jobj [])
  if pyTruthy proofV = false then false
  else
    match proofV with
    | jobj proof =>
      let credCopy := ddel credential (str "proof")
      match dget proof (str "jws") with
      | some (jstr jws) =>
        match b64DecodeSig (jws ++ List.replicate (4 - jws.length % 4) '=') with
        | none => false
        | some s => edVerify publicKey s (dumps (jobj credCopy))
      | _ => false
    | _ => false

/-! ## Shared logic (src/shared_logic.py) -/

/-- `sign_attestation(data, private_key)`; `now` is the `created`
timestamp.  Signs `json.dumps(data)` as-is and attaches a proof block
with the fixed healthcare-trust verification method. -/
def sign_attestation (data : Dict) (privateKey : SecretKey) (now : Str) : Dict :=
  let credentialBytes := dumps (jobj data)
  let signature := edSign privateKey credentialBytes
  dset data (str "proof")
    (proofBlock now (str "did:web:healthcare-trust.gov#key-1") signature)

/-! ## Heap model for in-place mutation -/

abbrev Ref := Nat

/-- A heap of Python dict objects. -/
abbrev Heap := Ref → Option Dict

/-- `sign_credential` as the caller observes it: the dict object `r`
passed in is mutated in place (the proof block, and when absent the
`issuanceDate`, are written into that very object) and the same object is
returned. -/
def signCredentialRef (h : Heap) (r : Ref) (privateKey : SecretKey)
    (verificationMethod : Str) (now : Str) : Heap × Ref :=
  match h r with
  | none => (h, r)
  | some d =>
    (fun r₂ => if r₂ = r
               then some (sign_credential d privateKey verificationMethod now)
               else h r₂, r)

/-- `sign_attestation` as the caller observes it: in-place mutation of the
dict object passed in, returning the same object. -/
def signAttestationRef (h : Heap) (r : Ref) (privateKey : SecretKey)
    (now : Str) : Heap × Ref :=
  match h r with
  | none => (h, r)
  | some d =>
    (fun r₂ => if r₂ = r
               then some (sign_attestation d privateKey now)
               else h r₂, r)

/-! ## Spec-side helper notions used by the theorems -/

/-- Does `pat` occur contiguously inside `s`? -/
def hasSub (pat : Str) : Str → Bool
  | [] => pat.isEmpty
  | c :: t => pat.isPrefixOf (c :: t) || hasSub pat t

/-- The exact byte sequence `sign_credential` serialises and signs: the
`json.dumps` of the credential in insertion order (after the
`issuanceDate` default), with no key sorting and no `proof` exclusion. -/
def signedBytes (credential : Dict) (now : Str) : Str :=
  dumps (jobj (withIssuanceDate credential now))

/-- Post-signing mutation of the proof's `verificationMethod` (the
credential is otherwise untouched). -/
def setProofVM (vc : Dict) (vm : Str) : Dict :=
  match dget vc (str "proof") with
  | some (jobj p) => dset vc (str "proof") (jobj (dset p (str "verificationMethod") (jstr vm)))
  | _ => vc

/-- A syntactically well-formed CMS credential whose JWS was produced with
an arbitrary secret key `sk` (the shape `verify_proof` expects, signed
over `id|issuanceDate` as the issuing agent does). -/
def forgeCmsCredential (sk : SecretKey) (vcId now : Str) : Dict :=
  [ (str "id", jstr vcId),
    (str "issuer", jstr cmsDid),
    (str "issuanceDate", jstr now),
    (str "proof", jobj [
      (str "type", jstr (str "Ed25519Signature2020")),
      (str "created", jstr now),
      (str "verificationMethod", jstr cmsVerificationMethod),
      (str "proofPurpose", jstr (str "assertionMethod")),
      (str "jws",
       jstr (jwsHeader ++ '.' :: '.' :: b64EncodeSig (edSign sk (vcId ++ '|' :: now))))]) ]

/-- A one-object heap holding an unsigned credential at reference `0`. -/
def heap0 : Heap :=
  fun r => if r = 0 then some [(str "id", jstr (str "c1"))] else none

/-! ## Helper lemmas: dictionaries -/

theorem dget_dset_self (d : Dict) (k : Str) (v : JVal) :
    dget (dset d k v) k = some v := by
  induction d with
  | nil => simp [dget, dset]
  | cons p rest ih =>
    by_cases h : p.1 = k
    · simp [dget, dset, h]
    · simp [dget, dset, h, ih]

theorem dget_dset_ne (d : Dict) (k k₂ : Str) (v : JVal) (h : k₂ ≠ k) :
    dget (dset d k v) k₂ = dget d k₂ := by
  induction d with
  | nil =>
    show (if k = k₂ then some v else none) = none
    rw [if_neg (fun hh => h hh.symm)]
  | cons p rest ih =>
    rcases p with ⟨k₁, v₁⟩
    show dget (if k₁ = k then (k₁, v) :: rest else (k₁, v₁) :: dset rest k v) k₂
        = dget ((k₁, v₁) :: rest) k₂
    by_cases h₁ : k₁ = k
    · rw [if_pos h₁]
      show (if k₁ = k₂ then some v else dget rest k₂)
          = if k₁ = k₂ then some v₁ else dget rest k₂
      have hne : ¬ k₁ = k₂ := fun hh => h (hh.symm.trans h₁)
      rw [if_neg hne, if_neg hne]
    · rw [if_neg h₁]
      show (if k₁ = k₂ then some v₁ else dget (dset rest k v) k₂)
          = if k₁ = k₂ then some v₁ else dget rest k₂
      rw [ih]

theorem dgetD_of_dget (d : Dict) (k : Str) (v dflt : JVal) (h : dget d k = some v) :
    dgetD d k dflt = v := by
  simp [dgetD, h]

theorem dgetD_of_dget_none (d : Dict) (k : Str) (dflt : JVal) (h : dget d k = none) :
    dgetD d k dflt = dflt := by
  simp [dgetD, h]

theorem mem_dset_of_ne (d : Dict) (k k₂ : Str) (v v₂ : JVal)
    (hmem : (k₂, v₂) ∈ d) (h : k₂ ≠ k) : (k₂, v₂) ∈ dset d k v := by
  induction d with
  | nil => cases hmem
  | cons p rest ih =>
    rcases p with ⟨k₁, v₁⟩
    show (k₂, v₂) ∈ (if k₁ = k then (k₁, v) :: rest else (k₁, v₁) :: dset rest k v)
    rcases List.mem_cons.mp hmem with h₁ | h₁
    · injection h₁ with hk hv
      subst hk
      subst hv
      rw [if_neg (fun hh : k₂ = k => h hh)]
      exact List.mem_cons_self _ _
    · by_cases hk : k₁ = k
      · rw [if_pos hk]
        exact List.mem_cons_of_mem _ h₁
      · rw [if_neg hk]
        exact List.mem_cons_of_mem _ (ih h₁)

/-! ## Helper lemmas: the signature encoding -/

theorem escB64Char_not_dot (c : Char) : '.' ∉ escB64Char c := by
  unfold escB64Char
  split
  · simp
  · split
    · simp
    · split
      · simp
      · rename_i h₁ h₂ h₃
        intro hmem
        rw [List.mem_singleton] at hmem
        exact h₁ hmem.symm

theorem escB64Char_not_pad (c : Char) : '=' ∉ escB64Char c := by
  unfold escB64Char
  split
  · simp
  · split
    · simp
    · split
      · simp
      · rename_i h₁ h₂ h₃
        intro hmem
        rw [List.mem_singleton] at hmem
        exact h₂ hmem.symm

theorem escB64_not_dot (s : Str) : '.' ∉ escB64 s := by
  induction s with
  | nil => simp [escB64]
  | cons c t ih =>
    simp only [escB64, List.flatMap_cons, List.mem_append]
    rintro (h | h)
    · exact escB64Char_not_dot c h
    · exact ih h

theorem escB64_not_pad (s : Str) : '=' ∉ escB64 s := by
  induction s with
  | nil => simp [escB64]
  | cons c t ih =>
    simp only [escB64, List.flatMap_cons, List.mem_append]
    rintro (h | h)
    · exact escB64Char_not_pad c h
    · exact ih h

theorem b64EncodeSig_not_dot (s : Sig) : '.' ∉ b64EncodeSig s := by
  simp only [b64EncodeSig, List.mem_append, List.mem_cons, List.mem_replicate]
  rintro (⟨_, h⟩ | h | h)
  · cases h
  · cases h
  · exact escB64_not_dot s.data h

theorem b64EncodeSig_not_pad (s : Sig) : '=' ∉ b64EncodeSig s := by
  simp only [b64EncodeSig, List.mem_append, List.mem_cons, List.mem_replicate]
  rintro (⟨_, h⟩ | h | h)
  · cases h
  · cases h
  · exact escB64_not_pad s.data h

theorem unescB64_escB64 (s : Str) : unescB64 (escB64 s) = some s := by
  induction s with
  | nil => rfl
  | cons c t ih =>
    show unescB64 (escB64Char c ++ escB64 t) = some (c :: t)
    by_cases h₁ : c = '.'
    · subst h₁
      simp [escB64Char, unescB64, ih]
    · by_cases h₂ : c = '='
      · subst h₂
        simp [escB64Char, unescB64, ih]
      · by_cases h₃ : c = 'E'
        · subst h₃
          simp [escB64Char, unescB64, ih]
        · have hesc : escB64Char c = [c] := by simp [escB64Char, h₁, h₂, h₃]
          rw [hesc]
          show unescB64 (c :: escB64 t) = some (c :: t)
          rw [unescB64.eq_def]
          simp only [if_neg h₃, ih]
          rfl

theorem dropWhile_pad (n : Nat) (t : Str) :
    List.dropWhile (· = '=') (List.replicate n '=' ++ t)
      = List.dropWhile (· = '=') t := by
  induction n with
  | zero => rfl
  | succ m ih => simp [List.replicate_succ, List.dropWhile, ih]

theorem dropWhile_pad_free (t : Str) (h : '=' ∉ t) :
    List.dropWhile (· = '=') t = t := by
  cases t with
  | nil => rfl
  | cons c rest =>
    have hc : ¬ (c = '=') := fun hh => h (hh ▸ List.mem_cons_self _ _)
    simp [List.dropWhile, hc]

theorem stripPad_append_pads (l : Str) (h : '=' ∉ l) (n : Nat) :
    stripPad (l ++ List.replicate n '=') = l := by
  unfold stripPad
  rw [List.reverse_append, List.reverse_replicate, dropWhile_pad,
      dropWhile_pad_free l.reverse (fun hh => h (List.mem_reverse.mp hh)),
      List.reverse_reverse]

theorem takeWhile_unary (n : Nat) (t : Str) :
    List.takeWhile (· = 'S') (List.replicate n 'S' ++ 'K' :: t)
      = List.replicate n 'S' := by
  induction n with
  | zero => simp [List.takeWhile]
  | succ m ih => simp [List.replicate_succ, List.takeWhile, ih]

theorem dropWhile_unary (n : Nat) (t : Str) :
    List.dropWhile (· = 'S') (List.replicate n 'S' ++ 'K' :: t) = 'K' :: t := by
  induction n with
  | zero => simp [List.dropWhile]
  | succ m ih => simp [List.replicate_succ, List.dropWhile, ih]

/-- Re-padding an unpadded signature encoding and decoding it recovers the
signature (the code's `urlsafe_b64decode(signature_b64 + "==")` and
`urlsafe_b64decode(jws + "=" * (4 - len(jws) % 4))` round-trips). -/
theorem b64DecodeSig_roundtrip (s : Sig) (n : Nat) :
    b64DecodeSig (b64EncodeSig s ++ List.replicate n '=') = some s := by
  unfold b64DecodeSig
  rw [stripPad_append_pads _ (b64EncodeSig_not_pad s) n]
  show (match List.dropWhile (· = 'S') (b64EncodeSig s) with
        | 'K' :: dataEnc =>
          (unescB64 dataEnc).map
            (fun d => ⟨(List.takeWhile (· = 'S') (b64EncodeSig s)).length, d⟩)
        | _ => none) = some s
  unfold b64EncodeSig
  rw [dropWhile_unary, takeWhile_unary]
  simp only [unescB64_escB64, List.length_replicate]
  rfl

/-! ## Helper lemmas: `split("..")` -/

theorem splitDD_no_dot (s : Str) : ∀ acc : Str, '.' ∉ s →
    splitDD acc s = [acc.reverse ++ s] := by
  induction s with
  | nil => intro acc _; simp [splitDD]
  | cons c t ih =>
    intro acc hs
    have hc : ¬ (c = '.') := fun hh => hs (hh ▸ List.mem_cons_self _ _)
    have ht : '.' ∉ t := fun hh => hs (List.mem_cons_of_mem _ hh)
    cases t with
    | nil => simp [splitDD]
    | cons c₂ t₂ =>
      show (if c = '.' ∧ c₂ = '.' then _ else splitDD (c :: acc) (c₂ :: t₂)) = _
      rw [if_neg (fun hh => hc hh.1), ih (c :: acc) ht]
      simp

theorem splitDD_sep (h : Str) : ∀ (acc t : Str), '.' ∉ h →
    splitDD acc (h ++ '.' :: '.' :: t) = (acc.reverse ++ h) :: splitDD [] t := by
  induction h with
  | nil =>
    intro acc t _
    show (if '.' = '.' ∧ '.' = '.' then acc.reverse :: splitDD [] t else _) = _
    rw [if_pos ⟨rfl, rfl⟩]
    simp
  | cons c h₂ ih =>
    intro acc t hs
    have hc : ¬ (c = '.') := fun hh => hs (hh ▸ List.mem_cons_self _ _)
    have hh₂ : '.' ∉ h₂ := fun hh => hs (List.mem_cons_of_mem _ hh)
    cases h₂ with
    | nil =>
      show (if c = '.' ∧ '.' = '.' then _ else splitDD (c :: acc) ('.' :: '.' :: t)) = _
      rw [if_neg (fun hh => hc hh.1)]
      have h0 := ih (c :: acc) t hh₂
      simp only [List.nil_append] at h0
      rw [h0]
      simp
    | cons c₂ h₃ =>
      show (if c = '.' ∧ c₂ = '.' then _
            else splitDD (c :: acc) ((c₂ :: h₃) ++ '.' :: '.' :: t)) = _
      rw [if_neg (fun hh => hc hh.1), ih (c :: acc) t hh₂]
      simp

/-- The JWS string built by the issuing agents splits into exactly the
header and the signature fragment. -/
theorem jwsParts_header_sig (hdr enc : Str) (h₁ : '.' ∉ hdr) (h₂ : '.' ∉ enc) :
    jwsParts (hdr ++ '.' :: '.' :: enc) = [hdr, enc] := by
  unfold jwsParts
  rw [splitDD_sep hdr [] enc h₁, splitDD_no_dot enc [] h₂]
  simp

/-! ## Master lemmas for `verify_proof` -/

theorem verifyProofTry_eval (vc : Dict) (info : IssuerInfo) (s : Sig) (idv datev : Str)
    (hid : dget vc (str "id") = some (jstr idv))
    (hdate : dget vc (str "issuanceDate") = some (jstr datev)) :
    verifyProofTry vc info (b64EncodeSig s)
      = if edVerify info.publicKey s (idv ++ '|' :: datev)
        then (true, str "Credential Verified via Cryptographic Proof")
        else (false, cryptoFailMsg []) := by
  unfold verifyProofTry
  rw [show str "==" = List.replicate 2 '=' from rfl, b64DecodeSig_roundtrip, hid, hdate]
  rfl

/-- Evaluation of `verify_proof` on a credential of the well-formed shape
(registered string issuer, dict proof of the supported type, JWS built as
`header..signature`): the outcome is exactly the outcome of the
cryptographic check. -/
theorem verify_proof_wf (vc proof : Dict) (info : IssuerInfo) (did hdr : Str) (s : Sig)
    (hdid : dget vc (str "issuer") = some (jstr did))
    (hreg : lookupIssuer TRUSTED_ISSUERS did = some info)
    (hproof : dget vc (str "proof") = some (jobj proof))
    (htype : dget proof (str "type") = some (jstr (str "Ed25519Signature2020")))
    (hjws : dget proof (str "jws") = some (jstr (hdr ++ '.' :: '.' :: b64EncodeSig s)))
    (hhdr : '.' ∉ hdr) :
    verify_proof vc = .ok (verifyProofTry vc info (b64EncodeSig s)) := by
  unfold verify_proof
  rw [dgetD_of_dget _ _ _ _ hdid]
  show verifyIssuer vc (Except.ok (lookupIssuer TRUSTED_ISSUERS did)) = _
  rw [hreg]
  show verifyProofObj vc info (dgetD vc (str "proof") (jobj [])) = _
  rw [dgetD_of_dget _ _ _ _ hproof]
  show verifyProofType vc info proof (dgetD proof (str "type") jnull) = _
  rw [dgetD_of_dget _ _ _ _ htype]
  show (if str "Ed25519Signature2020" = str "Ed25519Signature2020" then
          verifyProofJws vc info (dgetD proof (str "jws") (jstr []))
        else Except.ok (false, str "Unsupported proof type")) = _
  rw [if_pos rfl, dgetD_of_dget _ _ _ _ hjws]
  show (match jwsParts (hdr ++ '.' :: '.' :: b64EncodeSig s) with
        | [_, signatureB64] => Except.ok (verifyProofTry vc info signatureB64)
        | [_] => Except.ok (false, str "Invalid JWS format")
        | _ => Except.error PyErr.valueError) = _
  rw [jwsParts_header_sig hdr (b64EncodeSig s) hhdr (b64EncodeSig_not_dot s)]

/-- `verify_proof` on a credential whose issuer entry is a string with no
registry entry: rejected as unknown, whatever the rest of the credential
holds. -/
theorem verify_proof_unknown (vc : Dict) (did : Str)
    (hdid : dget vc (str "issuer") = some (jstr did))
    (hreg : lookupIssuer TRUSTED_ISSUERS did = none) :
    verify_proof vc = .ok (false, str "Issuer not found in Trust Registry") := by
  unfold verify_proof
  rw [dgetD_of_dget _ _ _ _ hdid]
  show verifyIssuer vc (Except.ok (lookupIssuer TRUSTED_ISSUERS did)) = _
  rw [hreg]
  rfl

/-- `verify_proof` on a credential with no issuer field at all: rejected as
unknown. -/
theorem verify_proof_no_issuer (vc : Dict)
    (hdid : dget vc (str "issuer") = none) :
    verify_proof vc = .ok (false, str "Issuer not found in Trust Registry") := by
  unfold verify_proof
  rw [dgetD_of_dget_none _ _ _ hdid]
  rfl

/-! ## Claim theorems -/

/-- C2: for every claim set (attestation id, tenant, validation outcome)
and the registered issuing key pair (the CMS issuer is registered with
exactly the public key of the signing seed), verifying a freshly issued
credential succeeds: `verify_proof (issue_verifiable_credential …)`
returns the verified outcome. -/
theorem c2_verify_of_issue (attestationId tenantId : Str) (validation : Dict) (now : Str) :
    verify_proof (issue_verifiable_credential attestationId tenantId validation now)
      = Except.ok (true, str "Credential Verified via Cryptographic Proof") := by
  have h := verify_proof_wf
    (issue_verifiable_credential attestationId tenantId validation now)
    [(str "type", jstr (str "Ed25519Signature2020")),
     (str "created", jstr now),
     (str "verificationMethod", jstr cmsVerificationMethod),
     (str "proofPurpose", jstr (str "assertionMethod")),
     (str "jws", jstr (jwsHeader ++ '.' :: '.' ::
        b64EncodeSig (edSign cmsSeed ((str "urn:uuid:" ++ attestationId) ++ '|' :: now))))]
    ⟨pubOf cmsSeed, str "Centers for Medicare & Medicaid Services (CMS)",
     [str "Issuer"], cmsVerificationMethod⟩
    cmsDid jwsHeader
    (edSign cmsSeed ((str "urn:uuid:" ++ attestationId) ++ '|' :: now))
    rfl rfl rfl rfl rfl (by decide)
  rw [h, verifyProofTry_eval
        (issue_verifiable_credential attestationId tenantId validation now)
        _ _ (str "urn:uuid:" ++ attestationId) now rfl rfl]
  simp [edVerify, edSign, pubOf]

/-- C6: a credential whose issuer identifier (absent, or a string) has no
entry in the trust registry is rejected as `Issuer not found in Trust
Registry` — the spec's `UnknownIssuer` — whatever the rest of the
credential holds: the check short-circuits before the proof-type, JWS and
signature steps (the theorem quantifies over arbitrary, even malformed,
proof blocks). -/
theorem c6_unknown_issuer_first (vc : Dict)
    (h : dget vc (str "issuer") = none ∨
         ∃ did : Str, dget vc (str "issuer") = some (jstr did) ∧
           lookupIssuer TRUSTED_ISSUERS did = none) :
    verify_proof vc = Except.ok (false, str "Issuer not found in Trust Registry") := by
  rcases h with h | ⟨did, h₁, h₂⟩
  · exact verify_proof_no_issuer vc h
  · exact verify_proof_unknown vc did h₁ h₂

/-- Witness for C6: an unregistered issuer is rejected as unknown even
though the credential's JWS (`"a..b..c"`) would crash the later JWS
unpacking step — the issuer check really comes first. -/
theorem c6_unknown_issuer_witness :
    verify_proof [(str "issuer", jstr (str "did:web:unknown.example")),
                  (str "proof", jobj [(str "type", jstr (str "Ed25519Signature2020")),
                                      (str "jws", jstr (str "a..b..c"))])]
      = Except.ok (false, str "Issuer not found in Trust Registry") :=
  c6_unknown_issuer_first _ (Or.inr ⟨str "did:web:unknown.example", rfl, rfl⟩)

/-- C5 (code bug): `verify_proof` does NOT return a structured rejection
on every malformed credential.  A registered issuer plus a supported
proof type with the JWS string `"a..b..c"` passes the `".." not in jws`
guard, and the unpacking `_, signature_b64 = jws.split("..")` — which sits
outside the `try:` block — raises an uncaught `ValueError` (three
fragments).  The model evaluates the code at that failing input. -/
theorem c5_jws_unpack_crash :
    verify_proof [(str "issuer", jstr cmsDid),
                  (str "id", jstr (str "urn:uuid:x")),
                  (str "issuanceDate", jstr (str "2026-01-01T00:00:00Z")),
                  (str "proof", jobj [(str "type", jstr (str "Ed25519Signature2020")),
                                      (str "jws", jstr (str "a..b..c"))])]
      = Except.error PyErr.valueError := by
  rfl

/-- Counterexample to C1 as stated: after signing, replacing the whole
`credentialSubject` claim set of an issued credential still verifies —
the signature covers only `id|issuanceDate`, so claims are not
tamper-evident. -/
theorem c1_claim_mutation_counterexample :
    verify_proof
      (dset (issue_verifiable_credential (str "att-1") (str "T1")
               [(str "valid", jbool true)] (str "2026-01-01T00:00:00Z"))
            (str "credentialSubject")
            (jobj [(str "complianceStatus", jstr (str "Flagged"))]))
      = Except.ok (true, str "Credential Verified via Cryptographic Proof") := by
  rfl

/-- C1 (amended): after signing, mutating the `id` or the
`issuanceDate` is rejected as a signature failure
(`Cryptographic Verification Failed`, the spec's `SignatureInvalid`);
mutating the `issuer` is rejected, but as `UnknownIssuer` when the new
issuer is unregistered and as a signature failure when it is another
registered issuer; mutating the claims (`credentialSubject`) is NOT
detected — verification still succeeds. -/
theorem c1_mutation_after_signing_amended
    (attestationId tenantId : Str) (validation : Dict) (now : Str)
    (newId newDate newDid : Str) (subjV : JVal)
    (hId : newId ≠ str "urn:uuid:" ++ attestationId)
    (hDate : newDate ≠ now)
    (hDid : lookupIssuer TRUSTED_ISSUERS newDid = none) :
    verify_proof (dset (issue_verifiable_credential attestationId tenantId validation now)
        (str "id") (jstr newId))
      = Except.ok (false, cryptoFailMsg []) ∧
    verify_proof (dset (issue_verifiable_credential attestationId tenantId validation now)
        (str "issuanceDate") (jstr newDate))
      = Except.ok (false, cryptoFailMsg []) ∧
    verify_proof (dset (issue_verifiable_credential attestationId tenantId validation now)
        (str "issuer") (jstr newDid))
      = Except.ok (false, str "Issuer not found in Trust Registry") ∧
    verify_proof (dset (issue_verifiable_credential attestationId tenantId validation now)
        (str "issuer") (jstr (str "did:web:clearinghouse.io:agent")))
      = Except.ok (false, cryptoFailMsg []) ∧
    verify_proof (dset (issue_verifiable_credential attestationId tenantId validation now)
        (str "credentialSubject") subjV)
      = Except.ok (true, str "Credential Verified via Cryptographic Proof") := by
  refine ⟨?_, ?_, ?_, ?_, ?_⟩
  · have h := verify_proof_wf
      (dset (issue_verifiable_credential attestationId tenantId validation now)
        (str "id") (jstr newId))
      [(str "type", jstr (str "Ed25519Signature2020")),
       (str "created", jstr now),
       (str "verificationMethod", jstr cmsVerificationMethod),
       (str "proofPurpose", jstr (str "assertionMethod")),
       (str "jws", jstr (jwsHeader ++ '.' :: '.' ::
          b64EncodeSig (edSign cmsSeed ((str "urn:uuid:" ++ attestationId) ++ '|' :: now))))]
      ⟨pubOf cmsSeed, str "Centers for Medicare & Medicaid Services (CMS)",
       [str "Issuer"], cmsVerificationMethod⟩
      cmsDid jwsHeader
      (edSign cmsSeed ((str "urn:uuid:" ++ attestationId) ++ '|' :: now))
      rfl rfl rfl rfl rfl (by decide)
    rw [h, verifyProofTry_eval
      (dset (issue_verifiable_credential attestationId tenantId validation now)
        (str "id") (jstr newId)) _ _ newId now rfl rfl]
    have hne : ¬ (str "urn:uuid:" ++ (attestationId ++ '|' :: now) = newId ++ '|' :: now) := by
      intro hh
      rw [← List.append_assoc] at hh
      exact hId (List.append_cancel_right hh).symm
    simp [edVerify, edSign, pubOf, hne]
  · have h := verify_proof_wf
      (dset (issue_verifiable_credential attestationId tenantId validation now)
        (str "issuanceDate") (jstr newDate))
      [(str "type", jstr (str "Ed25519Signature2020")),
       (str "created", jstr now),
       (str "verificationMethod", jstr cmsVerificationMethod),
       (str "proofPurpose", jstr (str "assertionMethod")),
       (str "jws", jstr (jwsHeader ++ '.' :: '.' ::
          b64EncodeSig (edSign cmsSeed ((str "urn:uuid:" ++ attestationId) ++ '|' :: now))))]
      ⟨pubOf cmsSeed, str "Centers for Medicare & Medicaid Services (CMS)",
       [str "Issuer"], cmsVerificationMethod⟩
      cmsDid jwsHeader
      (edSign cmsSeed ((str "urn:uuid:" ++ attestationId) ++ '|' :: now))
      rfl rfl rfl rfl rfl (by decide)
    rw [h, verifyProofTry_eval
      (dset (issue_verifiable_credential attestationId tenantId validation now)
        (str "issuanceDate") (jstr newDate)) _ _ (str "urn:uuid:" ++ attestationId) newDate rfl rfl]
    have hne : ¬ (str "urn:uuid:" ++ (attestationId ++ '|' :: now)
        = str "urn:uuid:" ++ (attestationId ++ '|' :: newDate)) := by
      intro hh
      have h₂ := List.append_cancel_left hh
      have h₃ := List.append_cancel_left h₂
      injection h₃ with _ h₄
      exact hDate h₄.symm
    simp [edVerify, edSign, pubOf, hne]
  · exact verify_proof_unknown _ newDid rfl hDid
  · have h := verify_proof_wf
      (dset (issue_verifiable_credential attestationId tenantId validation now)
        (str "issuer") (jstr (str "did:web:clearinghouse.io:agent")))
      [(str "type", jstr (str "Ed25519Signature2020")),
       (str "created", jstr now),
       (str "verificationMethod", jstr cmsVerificationMethod),
       (str "proofPurpose", jstr (str "assertionMethod")),
       (str "jws", jstr (jwsHeader ++ '.' :: '.' ::
          b64EncodeSig (edSign cmsSeed ((str "urn:uuid:" ++ attestationId) ++ '|' :: now))))]
      ⟨clearinghousePub, str "Secure Healthcare Clearinghouse Hub",
       [str "Verifier", str "Proxy"], str "did:web:clearinghouse.io:agent#key-1"⟩
      (str "did:web:clearinghouse.io:agent") jwsHeader
      (edSign cmsSeed ((str "urn:uuid:" ++ attestationId) ++ '|' :: now))
      rfl rfl rfl rfl rfl (by decide)
    rw [h, verifyProofTry_eval
      (dset (issue_verifiable_credential attestationId tenantId validation now)
        (str "issuer") (jstr (str "did:web:clearinghouse.io:agent")))
        _ _ (str "urn:uuid:" ++ attestationId) now rfl rfl]
    simp [edVerify, edSign, pubOf, clearinghousePub, cmsSeed]
  · have h := verify_proof_wf
      (dset (issue_verifiable_credential attestationId tenantId validation now)
        (str "credentialSubject") subjV)
      [(str "type", jstr (str "Ed25519Signature2020")),
       (str "created", jstr now),
       (str "verificationMethod", jstr cmsVerificationMethod),
       (str "proofPurpose", jstr (str "assertionMethod")),
       (str "jws", jstr (jwsHeader ++ '.' :: '.' ::
          b64EncodeSig (edSign cmsSeed ((str "urn:uuid:" ++ attestationId) ++ '|' :: now))))]
      ⟨pubOf cmsSeed, str "Centers for Medicare & Medicaid Services (CMS)",
       [str "Issuer"], cmsVerificationMethod⟩
      cmsDid jwsHeader
      (edSign cmsSeed ((str "urn:uuid:" ++ attestationId) ++ '|' :: now))
      rfl rfl rfl rfl rfl (by decide)
    rw [h, verifyProofTry_eval
      (dset (issue_verifiable_credential attestationId tenantId validation now)
        (str "credentialSubject") subjV) _ _ (str "urn:uuid:" ++ attestationId) now rfl rfl]
    simp [edVerify, edSign, pubOf]

/-- Witness for C1 (amended), at concrete inputs: an `id` mutation is
rejected as a signature failure, and a claim mutation still verifies. -/
theorem c1_mutation_after_signing_witness :
    verify_proof (dset (issue_verifiable_credential (str "a") (str "t") [] (str "N"))
        (str "id") (jstr (str "X")))
      = Except.ok (false, cryptoFailMsg []) ∧
    verify_proof (dset (issue_verifiable_credential (str "a") (str "t") [] (str "N"))
        (str "credentialSubject") jnull)
      = Except.ok (true, str "Credential Verified via Cryptographic Proof") :=
  ⟨(c1_mutation_after_signing_amended (str "a") (str "t") [] (str "N")
      (str "X") (str "M") (str "did:web:nobody.example") jnull
      (by decide) (by decide) rfl).1,
   (c1_mutation_after_signing_amended (str "a") (str "t") [] (str "N")
      (str "X") (str "M") (str "did:web:nobody.example") jnull
      (by decide) (by decide) rfl).2.2.2.2⟩

/-- Counterexample to C3 as stated: replacing the proof's
`verificationMethod` of a signed credential with an attacker-chosen value
does not produce a `VerificationMethodMismatch` rejection — verification
still succeeds, because `verify_proof` never reads `verificationMethod`. -/
theorem c3_vm_mismatch_counterexample :
    verify_proof (setProofVM
        (issue_verifiable_credential (str "att-3") (str "T3")
          [(str "valid", jbool true)] (str "2026-02-02T00:00:00Z"))
        (str "did:web:attacker.example#key-9"))
      = Except.ok (true, str "Credential Verified via Cryptographic Proof") := by
  rfl

/-- C3 (amended): `verify_proof` performs no verification-method check at
all — any `verificationMethod` value verifies, for every issued
credential; and a credential signed with a different key pair (a key whose
public half is not the registry entry for the credential's issuer) is
rejected, but as a signature failure (the spec's `SignatureInvalid`) —
there is no distinct `VerificationMethodMismatch` failure. -/
theorem c3_verification_method_ignored_amended
    (attestationId tenantId : Str) (validation : Dict) (now : Str)
    (vm : Str) (sk : SecretKey) (vcId : Str)
    (hsk : pubOf sk ≠ pubOf cmsSeed) :
    verify_proof (setProofVM
        (issue_verifiable_credential attestationId tenantId validation now) vm)
      = Except.ok (true, str "Credential Verified via Cryptographic Proof") ∧
    verify_proof (forgeCmsCredential sk vcId now)
      = Except.ok (false, cryptoFailMsg []) := by
  constructor
  · have h := verify_proof_wf
      (setProofVM
        (issue_verifiable_credential attestationId tenantId validation now) vm)
      [(str "type", jstr (str "Ed25519Signature2020")),
       (str "created", jstr now),
       (str "verificationMethod", jstr vm),
       (str "proofPurpose", jstr (str "assertionMethod")),
       (str "jws", jstr (jwsHeader ++ '.' :: '.' ::
          b64EncodeSig (edSign cmsSeed ((str "urn:uuid:" ++ attestationId) ++ '|' :: now))))]
      ⟨pubOf cmsSeed, str "Centers for Medicare & Medicaid Services (CMS)",
       [str "Issuer"], cmsVerificationMethod⟩
      cmsDid jwsHeader
      (edSign cmsSeed ((str "urn:uuid:" ++ attestationId) ++ '|' :: now))
      rfl rfl rfl rfl rfl (by decide)
    rw [h, verifyProofTry_eval
      (setProofVM
        (issue_verifiable_credential attestationId tenantId validation now) vm)
      _ _ (str "urn:uuid:" ++ attestationId) now rfl rfl]
    simp [edVerify, edSign, pubOf]
  · have h := verify_proof_wf
      (forgeCmsCredential sk vcId now)
      [(str "type", jstr (str "Ed25519Signature2020")),
       (str "created", jstr now),
       (str "verificationMethod", jstr cmsVerificationMethod),
       (str "proofPurpose", jstr (str "assertionMethod")),
       (str "jws", jstr (jwsHeader ++ '.' :: '.' ::
          b64EncodeSig (edSign sk (vcId ++ '|' :: now))))]
      ⟨pubOf cmsSeed, str "Centers for Medicare & Medicaid Services (CMS)",
       [str "Issuer"], cmsVerificationMethod⟩
      cmsDid jwsHeader
      (edSign sk (vcId ++ '|' :: now))
      rfl rfl rfl rfl rfl (by decide)
    rw [h, verifyProofTry_eval (forgeCmsCredential sk vcId now) _ _ vcId now rfl rfl]
    have hne : ¬ (cmsSeed = sk) := fun hh => hsk (congrArg pubOf hh.symm)
    simp [edVerify, edSign, pubOf, hne]

/-- Witness for C3 (amended), at concrete inputs: a wrong
`verificationMethod` still verifies, and a forged credential signed with
the key `5` (not the CMS pair) fails as a signature failure. -/
theorem c3_verification_method_ignored_witness :
    verify_proof (setProofVM
        (issue_verifiable_credential (str "b") (str "t") [] (str "N"))
        (str "did:web:evil.example#key-1"))
      = Except.ok (true, str "Credential Verified via Cryptographic Proof") ∧
    verify_proof (forgeCmsCredential 5 (str "urn:uuid:b") (str "N"))
      = Except.ok (false, cryptoFailMsg []) :=
  c3_verification_method_ignored_amended (str "b") (str "t") [] (str "N")
    (str "did:web:evil.example#key-1") 5 (str "urn:uuid:b") (by decide)

/-- Counterexample to C7 as stated: the AWS Lambda decision handler, cited
by the claim, denies a missing credential with the reason
`"No Verifiable Credential presented"`, which is not the exact reason
`"Missing Verifiable Credential"`. -/
theorem c7_lambda_reason_counterexample :
    lambda_handle_prior_auth [] (str "AUTH-1") (str "2027-01-01T00:00:00")
      = Except.ok [(str "status", jstr (str "Denied")),
                   (str "reason", jstr (str "No Verifiable Credential presented"))] ∧
    str "No Verifiable Credential presented" ≠ str "Missing Verifiable Credential" :=
  ⟨rfl, by decide⟩

/-- C7 (amended): when no credential is presented (the key absent or
null), both handlers deny — the GCP handler with the exact reason
`"Missing Verifiable Credential"`, the AWS Lambda handler with the exact
reason `"No Verifiable Credential presented"`. -/
theorem c7_missing_credential_amended (params : Dict)
    (authId priorAuthId validUntil : Str)
    (h : dget params (str "verifiable_credential") = none ∨
         dget params (str "verifiable_credential") = some jnull) :
    gcp_handle_prior_auth params authId
      = Except.ok [(str "status", jstr (str "Denied")),
                   (str "reason", jstr (str "Missing Verifiable Credential"))] ∧
    lambda_handle_prior_auth params priorAuthId validUntil
      = Except.ok [(str "status", jstr (str "Denied")),
                   (str "reason", jstr (str "No Verifiable Credential presented"))] := by
  have hv : dgetD params (str "verifiable_credential") jnull = jnull := by
    rcases h with h | h
    · exact dgetD_of_dget_none _ _ _ h
    · exact dgetD_of_dget _ _ _ _ h
  constructor
  · unfold gcp_handle_prior_auth
    rw [hv]
    rfl
  · unfold lambda_handle_prior_auth
    rw [hv]
    rfl

/-- Witness for C7 (amended): empty request parameters. -/
theorem c7_missing_credential_witness :
    gcp_handle_prior_auth [] (str "GCP-AUTH-1")
      = Except.ok [(str "status", jstr (str "Denied")),
                   (str "reason", jstr (str "Missing Verifiable Credential"))] :=
  (c7_missing_credential_amended [] (str "GCP-AUTH-1") (str "AUTH-1")
    (str "2027-01-01T00:00:00") (Or.inl rfl)).1

/-- C8: whenever the verifier rejects a presented credential with a
message, both decision handlers deny — never approve — and surface the
verifier's message verbatim (as the suffix of the fixed handler prefix:
`"Verification Failed: "` on GCP, `"Untrusted Credential: "` on Lambda). -/
theorem c8_rejection_surfaced (params vc : Dict)
    (authId priorAuthId validUntil msg : Str)
    (hget : dgetD params (str "verifiable_credential") jnull = jobj vc)
    (htruthy : pyTruthy (jobj vc) = true)
    (hrej : verify_proof vc = Except.ok (false, msg)) :
    gcp_handle_prior_auth params authId
      = Except.ok [(str "status", jstr (str "Denied")),
                   (str "reason", jstr (str "Verification Failed: " ++ msg))] ∧
    lambda_handle_prior_auth params priorAuthId validUntil
      = Except.ok [(str "status", jstr (str "Denied")),
                   (str "reason", jstr (str "Untrusted Credential: " ++ msg))] := by
  constructor
  · unfold gcp_handle_prior_auth
    rw [hget]
    unfold gcpCheckVC
    rw [htruthy]
    show gcpDecide authId (verify_proof vc) = _
    rw [hrej]
    rfl
  · unfold lambda_handle_prior_auth
    rw [hget]
    unfold lambdaCheckVC
    rw [htruthy]
    show lambdaDecide priorAuthId validUntil (verify_proof vc) = _
    rw [hrej]
    rfl

/-- Witness for C8: a credential from an unregistered issuer is denied by
both handlers with the verifier's message appended verbatim. -/
theorem c8_rejection_surfaced_witness :
    gcp_handle_prior_auth
        [(str "verifiable_credential",
          jobj [(str "issuer", jstr (str "did:web:nobody.example"))])]
        (str "GCP-AUTH-2")
      = Except.ok [(str "status", jstr (str "Denied")),
                   (str "reason",
                    jstr (str "Verification Failed: Issuer not found in Trust Registry"))] ∧
    lambda_handle_prior_auth
        [(str "verifiable_credential",
          jobj [(str "issuer", jstr (str "did:web:nobody.example"))])]
        (str "AUTH-2") (str "2027-01-01T00:00:00")
      = Except.ok [(str "status", jstr (str "Denied")),
                   (str "reason",
                    jstr (str "Untrusted Credential: Issuer not found in Trust Registry"))] :=
  c8_rejection_surfaced
    [(str "verifiable_credential",
      jobj [(str "issuer", jstr (str "did:web:nobody.example"))])]
    [(str "issuer", jstr (str "did:web:nobody.example"))]
    (str "GCP-AUTH-2") (str "AUTH-2") (str "2027-01-01T00:00:00")
    (str "Issuer not found in Trust Registry") rfl rfl rfl

/-! ## Helper lemmas: substring occurrence in serialised objects -/

theorem isPrefixOf_append_self (l t : Str) : l.isPrefixOf (l ++ t) = true := by
  induction l with
  | nil => cases t <;> rfl
  | cons c r ih =>
    rw [List.cons_append]
    show (c == c && r.isPrefixOf (r ++ t)) = true
    rw [ih, Bool.and_true, beq_self_eq_true]

theorem hasSub_nil_pat (x : Str) : hasSub [] x = true := by
  cases x with
  | nil => rfl
  | cons c t => simp [hasSub, List.isPrefixOf]

theorem hasSub_of_parts (pre pat post : Str) :
    hasSub pat (pre ++ pat ++ post) = true := by
  induction pre with
  | nil =>
    cases pat with
    | nil =>
      rw [List.nil_append, List.nil_append]
      exact hasSub_nil_pat post
    | cons c r =>
      rw [List.nil_append, List.cons_append]
      show ((c :: r).isPrefixOf (c :: (r ++ post)) || hasSub (c :: r) (r ++ post)) = true
      rw [← List.cons_append, isPrefixOf_append_self, Bool.true_or]
  | cons c pre₂ ih =>
    rw [List.cons_append, List.cons_append]
    show (pat.isPrefixOf (c :: (pre₂ ++ pat ++ post)) || hasSub pat (pre₂ ++ pat ++ post)) = true
    rw [ih, Bool.or_true]

theorem dumpsObj_decomp (d : List (Str × JVal)) (k : Str) (v : JVal) (h : (k, v) ∈ d) :
    ∃ pre post, dumpsObj d = pre ++ dumpJStr k ++ post := by
  induction d with
  | nil => cases h
  | cons p rest ih =>
    rcases p with ⟨k₁, v₁⟩
    rcases List.mem_cons.mp h with h₁ | h₁
    · injection h₁ with hk hv
      subst hk
      cases rest with
      | nil =>
        refine ⟨[], str ": " ++ dumps v₁, ?_⟩
        simp [dumpsObj]
      | cons q rest₂ =>
        refine ⟨[], str ": " ++ dumps v₁ ++ str ", " ++ dumpsObj (q :: rest₂), ?_⟩
        simp [dumpsObj]
    · cases rest with
      | nil => cases h₁
      | cons q rest₂ =>
        obtain ⟨pre, post, hd⟩ := ih h₁
        refine ⟨dumpJStr k₁ ++ str ": " ++ dumps v₁ ++ str ", " ++ pre, post, ?_⟩
        simp [dumpsObj, hd]

/-- A key present in a dict occurs, as a serialised JSON key, inside the
`json.dumps` of that dict. -/
theorem dumps_contains_key (d : List (Str × JVal)) (k : Str) (v : JVal) (h : (k, v) ∈ d) :
    hasSub (dumpJStr k) (dumps (jobj d)) = true := by
  obtain ⟨pre, post, hd⟩ := dumpsObj_decomp d k v h
  have hshape : dumps (jobj d) = ('\x7b' :: pre) ++ dumpJStr k ++ (post ++ ['\x7d']) := by
    show '\x7b' :: dumpsObj d ++ ['\x7d'] = _
    rw [hd]
    simp
  rw [hshape]
  exact hasSub_of_parts _ _ _

/-- Counterexample to C4 as stated: two credentials holding the same
claims, inserted in a different order, serialise — and therefore sign —
to different byte sequences (`json.dumps` is called without key
sorting). -/
theorem c4_order_counterexample :
    signedBytes [(str "a", jstr (str "x")), (str "b", jstr (str "y")),
                 (str "issuanceDate", jstr (str "T"))] (str "N")
      ≠ signedBytes [(str "b", jstr (str "y")), (str "a", jstr (str "x")),
                 (str "issuanceDate", jstr (str "T"))] (str "N") := by
  decide

/-- C4 (amended): the byte sequence signed by `sign_credential` is exactly
the JSON serialisation of the credential in dictionary insertion order
(after the `issuanceDate` default) — deterministic for a fixed insertion
order, but NOT order-independent: there are two permutations of the same
entries whose encodings differ. -/
theorem c4_insertion_order_encoding_amended (credential : Dict)
    (privateKey : SecretKey) (verificationMethod now : Str) :
    sign_credential credential privateKey verificationMethod now
      = dset (withIssuanceDate credential now) (str "proof")
          (proofBlock now verificationMethod
            (edSign privateKey (signedBytes credential now))) ∧
    ∃ c₁ c₂ : Dict, c₁.Perm c₂ ∧ signedBytes c₁ now ≠ signedBytes c₂ now := by
  refine ⟨rfl, [(str "a", jstr (str "x")), (str "b", jstr (str "y")),
                (str "issuanceDate", jstr (str "T"))],
              [(str "b", jstr (str "y")), (str "a", jstr (str "x")),
                (str "issuanceDate", jstr (str "T"))],
              List.Perm.swap _ _ _, ?_⟩
  intro hcontra
  exact absurd
    (show dumps (jobj [(str "a", jstr (str "x")), (str "b", jstr (str "y")),
                       (str "issuanceDate", jstr (str "T"))])
        = dumps (jobj [(str "b", jstr (str "y")), (str "a", jstr (str "x")),
                       (str "issuanceDate", jstr (str "T"))]) from hcontra)
    (by decide)

/-- Counterexample to C9 as stated: signing a credential that already
contains a `proof` field does not fail — `sign_credential` returns a
normally signed dict, its signing input contains the serialised `proof`
entry (with its old value), and the old proof is simply overwritten. -/
theorem c9_existing_proof_counterexample :
    sign_credential [(str "id", jstr (str "c9")), (str "proof", jstr (str "OLD")),
                     (str "issuanceDate", jstr (str "D"))]
        7 (str "vm#1") (str "2026-01-01T00:00:00Z")
      = dset [(str "id", jstr (str "c9")), (str "proof", jstr (str "OLD")),
              (str "issuanceDate", jstr (str "D"))]
          (str "proof")
          (proofBlock (str "2026-01-01T00:00:00Z") (str "vm#1")
            (edSign 7 (dumps (jobj [(str "id", jstr (str "c9")),
                                    (str "proof", jstr (str "OLD")),
                                    (str "issuanceDate", jstr (str "D"))])))) ∧
    hasSub (dumpJStr (str "proof") ++ str ": " ++ dumpJStr (str "OLD"))
        (signedBytes [(str "id", jstr (str "c9")), (str "proof", jstr (str "OLD")),
                      (str "issuanceDate", jstr (str "D"))]
          (str "2026-01-01T00:00:00Z")) = true :=
  ⟨rfl, by decide⟩

/-- C9 (amended): the signing encoder neither rejects nor excludes an
existing `proof` field: `sign_credential` on a credential containing
`proof` succeeds, its signing input is the serialisation of the whole
dict — in which the `proof` key occurs — and the proof is then
overwritten. -/
theorem c9_proof_not_excluded_amended (credential : Dict) (privateKey : SecretKey)
    (verificationMethod now : Str) (pv : JVal)
    (hmem : (str "proof", pv) ∈ credential) :
    sign_credential credential privateKey verificationMethod now
      = dset (withIssuanceDate credential now) (str "proof")
          (proofBlock now verificationMethod
            (edSign privateKey (signedBytes credential now))) ∧
    hasSub (dumpJStr (str "proof")) (signedBytes credential now) = true := by
  refine ⟨rfl, ?_⟩
  have hmem₂ : (str "proof", pv) ∈ withIssuanceDate credential now := by
    unfold withIssuanceDate
    split
    · exact hmem
    · exact mem_dset_of_ne _ _ _ _ _ hmem (by decide)
  exact dumps_contains_key _ _ _ hmem₂

/-- Witness for C9 (amended). -/
theorem c9_proof_not_excluded_witness :
    hasSub (dumpJStr (str "proof"))
        (signedBytes [(str "proof", jstr (str "OLD")), (str "id", jstr (str "c9x")),
                      (str "issuanceDate", jstr (str "D"))] (str "N")) = true :=
  (c9_proof_not_excluded_amended
    [(str "proof", jstr (str "OLD")), (str "id", jstr (str "c9x")),
     (str "issuanceDate", jstr (str "D"))]
    7 (str "vm#1") (str "N") (jstr (str "OLD"))
    (List.mem_cons_self _ _)).2

/-- C10: signing mutates its input in place.  In the heap model, the dict
object passed to `sign_credential` / `sign_attestation` is the object
returned; its contents afterwards are the signed credential (proof block
attached, and `issuanceDate` defaulted when absent — the conjunct on
`dget` shows the added field); every other heap object is untouched, so
no unsigned copy of the credential survives. -/
theorem c10_sign_in_place (h : Heap) (r : Ref) (d : Dict) (privateKey : SecretKey)
    (verificationMethod now : Str) (hr : h r = some d) :
    (signCredentialRef h r privateKey verificationMethod now).2 = r ∧
    (signCredentialRef h r privateKey verificationMethod now).1 r
      = some (dset (withIssuanceDate d now) (str "proof")
          (proofBlock now verificationMethod
            (edSign privateKey (signedBytes d now)))) ∧
    (∀ r₂, r₂ ≠ r → (signCredentialRef h r privateKey verificationMethod now).1 r₂ = h r₂) ∧
    (dcontains d (str "issuanceDate") = false →
      dget (sign_credential d privateKey verificationMethod now) (str "issuanceDate")
        = some (jstr now)) ∧
    (signAttestationRef h r privateKey now).2 = r ∧
    (signAttestationRef h r privateKey now).1 r
      = some (dset d (str "proof")
          (proofBlock now (str "did:web:healthcare-trust.gov#key-1")
            (edSign privateKey (dumps (jobj d))))) := by
  unfold signCredentialRef signAttestationRef
  rw [hr]
  refine ⟨rfl, ?_, ?_, ?_, rfl, ?_⟩
  · simp
    rfl
  · intro r₂ hne
    simp [hne]
  · intro hno
    unfold sign_credential withIssuanceDate
    rw [hno]
    show dget (dset (dset d (str "issuanceDate") (jstr now)) (str "proof") _)
        (str "issuanceDate") = some (jstr now)
    rw [dget_dset_ne _ _ _ _ (by decide), dget_dset_self]
  · simp
    rfl

/-- Witness for C10: at a concrete one-object heap, the returned reference
is the input reference and the rest of the heap is untouched. -/
theorem c10_sign_in_place_witness :
    (signCredentialRef heap0 0 7 (str "vm#1") (str "N")).2 = 0 ∧
    (signCredentialRef heap0 0 7 (str "vm#1") (str "N")).1 1 = none := by
  have h := c10_sign_in_place heap0 0 [(str "id", jstr (str "c1"))] 7
    (str "vm#1") (str "N") rfl
  exact ⟨h.1, by rw [h.2.2.1 1 (by decide)]; rfl⟩
